import Mathlib

/-!
Verification of the scenario-adjusted forecast computation and KPI derivation
of the sales-forecast dashboard (src/dashboard/mainpage.py, with the shared
best-model computation also in src/dashboard/comparison.py).

The dashboard loads a dictionary of precomputed tables (aggregate forecast,
per-category forecast, monthly sales, error metrics) and derives:
a category-selected forecast series, a growth-adjusted series (new columns
yhat_adj / yhat_lower_adj / yhat_upper_adj), a 6-month tail window, a KPI sum,
and the best model by minimum MAE.

Numbers are modelled as rationals (exact arithmetic); timestamps as naturals
(only their identity and order matter to the page logic).
-/

namespace Dashboard

/-- A row of the aggregate forecast table (columns ds, yhat, yhat_lower,
yhat_upper), as stored in state_holder at key "forecast". -/
structure ForecastRow where
  ds : Nat
  yhat : ℚ
  yhat_lower : ℚ
  yhat_upper : ℚ
deriving DecidableEq, Repr

/-- A row of the per-category forecast table (key "category_forecast_df"),
which additionally carries the Category column. -/
structure CatRow where
  category : String
  ds : Nat
  yhat : ℚ
  yhat_lower : ℚ
  yhat_upper : ℚ
deriving DecidableEq, Repr

/-- Dropping the Category column of a per-category row leaves an ordinary
forecast row (the shape the rest of the page consumes). -/
def CatRow.toForecastRow (r : CatRow) : ForecastRow :=
  { ds := r.ds, yhat := r.yhat, yhat_lower := r.yhat_lower,
    yhat_upper := r.yhat_upper }

/-- mainpage.py lines 74-83: the forecast source. If the selected category is
"All Categories" the aggregate table is taken (a copy of forecast_all);
otherwise the per-category table is filtered to the rows whose Category equals
the selection. No error is raised on an empty filter result. -/
def selectSeries (category : String) (forecast_all : List ForecastRow)
    (category_forecast : List CatRow) : List ForecastRow :=
  if category = "All Categories" then forecast_all
  else (category_forecast.filter (fun r => r.category = category)).map
    CatRow.toForecastRow

/-- A forecast row after the growth adjustment of mainpage.py lines 100-103:
the original columns are kept and three new adjusted columns are added. -/
structure AdjRow where
  ds : Nat
  yhat : ℚ
  yhat_lower : ℚ
  yhat_upper : ℚ
  yhat_adj : ℚ
  yhat_lower_adj : ℚ
  yhat_upper_adj : ℚ
deriving DecidableEq, Repr

/-- mainpage.py lines 100-103: each of yhat, yhat_lower, yhat_upper is scaled
by (1 + growth_adjustment) into a new column; the original columns remain. -/
def applyGrowth (series : List ForecastRow) (rate : ℚ) : List AdjRow :=
  series.map (fun r =>
    { ds := r.ds, yhat := r.yhat, yhat_lower := r.yhat_lower,
      yhat_upper := r.yhat_upper,
      yhat_adj := r.yhat * (1 + rate),
      yhat_lower_adj := r.yhat_lower * (1 + rate),
      yhat_upper_adj := r.yhat_upper * (1 + rate) })

/-- mainpage.py line 106, forecast.tail(6): pandas DataFrame.tail(n) returns
the last n rows, or the whole frame when it has at most n rows; it never
raises for short input. -/
def tailWindow (series : List AdjRow) (n : Nat) : List AdjRow :=
  series.drop (series.length - n)

/-- mainpage.py line 107: the KPI total is the sum of the adjusted point
estimates over the tail window. -/
def summarize (adjustedTail : List AdjRow) : ℚ :=
  (adjustedTail.map AdjRow.yhat_adj).sum

/-- A row of the errors table (key "errors"), indexed by model name with the
four metric columns. -/
structure ErrorRow where
  model : String
  mae : ℚ
  mse : ℚ
  mape : ℚ
  rmse : ℚ
deriving DecidableEq, Repr

/-- pandas Series.idxmin over the MAE column (mainpage.py line 108,
comparison.py line 61): the index label of the first occurrence of the
minimum; on an empty table idxmin raises, modelled as none. -/
def idxminMAE : List ErrorRow → Option ErrorRow
  | [] => none
  | r :: rs =>
    match idxminMAE rs with
    | none => some r
    | some b => some (if b.mae < r.mae then b else r)

/-- mainpage.py lines 108-109: the best model's name (errors["MAE"].idxmin())
paired with its MAE (errors.loc[best_model, "MAE"]). -/
def bestModel (errorTable : List ErrorRow) : Option (String × ℚ) :=
  (idxminMAE errorTable).map (fun r => (r.model, r.mae))

/-- pandas Series.unique over the Category column: the distinct values.
pandas keeps first-occurrence order while List.dedup keeps last occurrences,
but the two agree as finite lists once sorted, which is how line 66 uses it. -/
def uniqueCategories (category_forecast : List CatRow) : List String :=
  (category_forecast.map CatRow.category).dedup

/-- mainpage.py line 66: the selectbox options are "All Categories" followed
by the sorted distinct Category values of the per-category table. -/
def categoryOptions (category_forecast : List CatRow) : List String :=
  "All Categories" :: List.insertionSort (· ≤ ·)
    (uniqueCategories category_forecast)

/-- mainpage.py lines 86-91: the fixed scenario-name-to-rate map. -/
def scenario_map : List (String × ℚ) :=
  [("Conservative (-10%)", -10/100),
   ("Baseline (0%)", 0),
   ("Optimistic (+10%)", 10/100),
   ("Aggressive (+20%)", 20/100)]

/-- The enumerated growth rates of the scenario set. -/
def scenarioRates : List ℚ := scenario_map.map Prod.snd

/-- A streamlit message emitted by the page body. -/
inductive Msg
  | success (s : String)
  | info (s : String)
  | warning (s : String)
deriving DecidableEq, Repr

/-- mainpage.py lines 200-207: the business-insight message, keyed purely to
the growth adjustment. -/
def businessInsight (growth : ℚ) : Msg :=
  if growth ≥ 15/100 then
    .success "Aggressive growth scenario selected. Plan for higher inventory and operational capacity."
  else if growth > 0 then
    .info "Moderate growth expected. Gradual scaling recommended."
  else if growth < 0 then
    .warning "Conservative scenario selected. Focus on cost control and promotions."
  else
    .info "Baseline scenario selected. Maintain current strategy."

/-- Whether a message is an st.warning. -/
def Msg.isWarning : Msg → Bool
  | .warning _ => true
  | _ => false

/-- The loaded state artifact: the four tables mainpage.py reads from
state_holder (lines 41-44). Monthly sales rows are (Order Date, Sales). -/
structure StateBlob where
  monthly_sales : List (Nat × ℚ)
  forecast : List ForecastRow
  category_forecast_df : List CatRow
  errors : List ErrorRow
deriving DecidableEq, Repr

/-- Why load_state can fail: the file is absent (FileNotFoundError) or the
load raised some other exception (corrupt pickle, missing key, ...), carrying
the exception text. -/
inductive LoadError
  | fileNotFound
  | corrupt (msg : String)
deriving DecidableEq, Repr

/-- mainpage.py lines 46-51: the error message shown for each failure kind. -/
def loadErrorMessage : LoadError → String
  | .fileNotFound => "Required files are not found. Please run the training notebook first."
  | .corrupt e => "Errors encountered while starting project: " ++ e

/-- What the page body computes and displays once the state is loaded: the
KPI row (lines 111-115), the 6-month forecast table (lines 181-187) and the
business-insight message (lines 198-207). -/
structure PageOutput where
  selectedCategory : String
  growth : ℚ
  forecast6mTotal : ℚ
  best : Option (String × ℚ)
  forecastTable : List AdjRow
  insight : Msg
deriving DecidableEq, Repr

/-- The page body after a successful load (mainpage.py lines 64-207, the
computational content). The scenario name comes from a selectbox over the
keys of scenario_map, so the lookup default is unreachable in the UI. -/
def renderMainPage (state : StateBlob) (selected_category : String)
    (selected_scenario : String) : PageOutput :=
  let forecast := selectSeries selected_category state.forecast
    state.category_forecast_df
  let growth := (scenario_map.lookup selected_scenario).getD 0
  let adjusted := applyGrowth forecast growth
  let future_6m := tailWindow adjusted 6
  { selectedCategory := selected_category,
    growth := growth,
    forecast6mTotal := summarize future_6m,
    best := bestModel state.errors,
    forecastTable := future_6m,
    insight := businessInsight growth }

/-- The session outcome: either st.stop() after an error message (fatal), or
a rendered page. -/
inductive PageOutcome
  | fatal (msg : String)
  | rendered (out : PageOutput)
deriving DecidableEq, Repr

/-- mainpage.py lines 36-51 followed by the page body: a load failure shows
the error message and stops before any forecast computation or rendering;
otherwise the page renders. -/
def runMainPage (loaded : Except LoadError StateBlob)
    (selected_category selected_scenario : String) : PageOutcome :=
  match loaded with
  | .error e => .fatal (loadErrorMessage e)
  | .ok state => .rendered (renderMainPage state selected_category selected_scenario)

/-- A dataframe as the scenario block sees it: base forecast rows plus,
once lines 100-103 ran on it, the three adjusted columns (a triple per row,
absent before the assignment). -/
structure DF where
  rows : List ForecastRow
  adj : Option (List (ℚ × ℚ × ℚ))
deriving DecidableEq, Repr

/-- The column assignments of mainpage.py lines 101-103 on one frame: the
base columns are untouched, the adjusted triples are written. -/
def addGrowthColumns (df : DF) (rate : ℚ) : DF :=
  { df with adj := some (df.rows.map (fun p =>
      (p.yhat * (1 + rate), p.yhat_lower * (1 + rate),
       p.yhat_upper * (1 + rate)))) }

/-- The loaded tables that the scenario block reads and that a column
assignment could, absent .copy(), reach through an alias. -/
structure LoadedTables where
  forecast_all : DF
  category_forecast : List CatRow
deriving DecidableEq, Repr

/-- What the local name forecast refers to: an alias of the loaded aggregate
table, or an owned copied frame. mainpage.py line 75 and lines 80-82 both end
in .copy(), so the code only ever produces the owned form; the alias form is
what dropping .copy() on line 75 would yield. -/
inductive FrameRef
  | aliasAll
  | owned (df : DF)
deriving DecidableEq, Repr

/-- mainpage.py lines 74-83: the selected frame, copied in both branches. -/
def chooseForecastFrame (store : LoadedTables) (category : String) :
    FrameRef :=
  if category = "All Categories" then .owned store.forecast_all
  else .owned
    { rows := (store.category_forecast.filter
        (fun r => r.category = category)).map CatRow.toForecastRow,
      adj := none }

/-- Column assignment through a frame reference: writing through an alias
mutates the store's table in place, writing to an owned copy leaves the
store unchanged. -/
def assignGrowthColumns (store : LoadedTables) (f : FrameRef) (rate : ℚ) :
    LoadedTables × DF :=
  match f with
  | .aliasAll =>
    let df := addGrowthColumns store.forecast_all rate
    ({ store with forecast_all := df }, df)
  | .owned df => (store, addGrowthColumns df rate)

/-- mainpage.py lines 74-103 as a state transformer on the loaded tables:
select the frame (ending in .copy()), then assign the adjusted columns. -/
def scenarioComputation (store : LoadedTables) (category : String)
    (rate : ℚ) : LoadedTables × DF :=
  assignGrowthColumns store (chooseForecastFrame store category) rate

/-- Fixture: a state whose per-category table has only Office Supplies rows,
so a "Furniture" selection filters to nothing. -/
def stateNoFurniture : StateBlob :=
  { monthly_sales := [(1, 50)],
    forecast := [⟨1, 100, 80, 120⟩],
    category_forecast_df := [⟨"Office Supplies", 1, 40, 30, 50⟩],
    errors := [⟨"Prophet", 2, 5, 1/100, 2⟩, ⟨"Naive", 4, 20, 3/100, 4⟩] }

/-- Fixture: a state whose aggregate forecast has only 3 points, fewer than
the 6-month tail window. -/
def stateShortForecast : StateBlob :=
  { monthly_sales := [(1, 50)],
    forecast := [⟨1, 100, 80, 120⟩, ⟨2, 110, 90, 130⟩, ⟨3, 120, 100, 140⟩],
    category_forecast_df := [⟨"Office Supplies", 1, 40, 30, 50⟩],
    errors := [⟨"Prophet", 2, 5, 1/100, 2⟩] }

/-- The 12-point monthly series of the spec's end-to-end example: the last 6
points all have point estimate 100 (bounds 80 and 120 around it). -/
def S12 : List ForecastRow :=
  [⟨1, 90, 70, 110⟩, ⟨2, 90, 70, 110⟩, ⟨3, 90, 70, 110⟩,
   ⟨4, 90, 70, 110⟩, ⟨5, 90, 70, 110⟩, ⟨6, 90, 70, 110⟩,
   ⟨7, 100, 80, 120⟩, ⟨8, 100, 80, 120⟩, ⟨9, 100, 80, 120⟩,
   ⟨10, 100, 80, 120⟩, ⟨11, 100, 80, 120⟩, ⟨12, 100, 80, 120⟩]

end Dashboard

namespace Dashboard

/-- Claim C8: selecting "All Categories" returns the aggregate series
unchanged, without filtering by category (mainpage.py lines 74-78). -/
theorem selectSeries_all_categories_id (forecast_all : List ForecastRow)
    (category_forecast : List CatRow) :
    selectSeries "All Categories" forecast_all category_forecast =
      forecast_all := by
  simp [selectSeries]

/-- Claim C6: the Baseline (0%) scenario is the identity transformation: the
adjusted columns of applyGrowth S 0 coincide with the original timestamp,
point estimate and bounds of S, pointwise. -/
theorem applyGrowth_zero_id (S : List ForecastRow) :
    (applyGrowth S 0).map
      (fun q => (q.ds, q.yhat_adj, q.yhat_lower_adj, q.yhat_upper_adj)) =
    S.map (fun p => (p.ds, p.yhat, p.yhat_lower, p.yhat_upper)) := by
  simp [applyGrowth, List.map_map]

/-- Claim C3: for every rate in the enumerated scenario set and every series,
the growth adjustment preserves the length, the timestamps in order, and the
lower-bound / point-estimate / upper-bound ordering of every point. -/
theorem applyGrowth_preserves (rate : ℚ) (hr : rate ∈ scenarioRates)
    (S : List ForecastRow) :
    (applyGrowth S rate).length = S.length ∧
    (applyGrowth S rate).map AdjRow.ds = S.map ForecastRow.ds ∧
    ∀ q ∈ applyGrowth S rate,
      q.yhat_lower ≤ q.yhat → q.yhat ≤ q.yhat_upper →
      q.yhat_lower_adj ≤ q.yhat_adj ∧ q.yhat_adj ≤ q.yhat_upper_adj := by
  have hpos : (0 : ℚ) ≤ 1 + rate := by
    simp [scenarioRates, scenario_map] at hr
    rcases hr with h | h | h | h <;> rw [h] <;> norm_num
  refine ⟨by simp [applyGrowth], by simp [applyGrowth, List.map_map], ?_⟩
  intro q hq h1 h2
  simp only [applyGrowth, List.mem_map] at hq
  obtain ⟨p, hp, rfl⟩ := hq
  exact ⟨mul_le_mul_of_nonneg_right h1 hpos,
         mul_le_mul_of_nonneg_right h2 hpos⟩

/-- Witness for C3 at the Aggressive (+20%) rate and a one-point series. -/
theorem applyGrowth_preserves_witness :
    ((20/100 : ℚ) ∈ scenarioRates) ∧
    ((applyGrowth [⟨1, 100, 80, 120⟩] (20/100)).length =
        ([⟨1, 100, 80, 120⟩] : List ForecastRow).length ∧
     (applyGrowth [⟨1, 100, 80, 120⟩] (20/100)).map AdjRow.ds =
        ([⟨1, 100, 80, 120⟩] : List ForecastRow).map ForecastRow.ds ∧
     ∀ q ∈ applyGrowth [⟨1, 100, 80, 120⟩] (20/100),
       q.yhat_lower ≤ q.yhat → q.yhat ≤ q.yhat_upper →
       q.yhat_lower_adj ≤ q.yhat_adj ∧ q.yhat_adj ≤ q.yhat_upper_adj) :=
  ⟨by norm_num [scenarioRates, scenario_map],
   applyGrowth_preserves (20/100)
     (by norm_num [scenarioRates, scenario_map]) [⟨1, 100, 80, 120⟩]⟩

/-- Claim C4: the KPI total of the adjusted tail window equals exactly the
sum of the adjusted point estimates of the last 6 points of the input series,
and on the spec's 12-point example the Aggressive (+20%) scenario yields
exactly 720. -/
theorem summarize_tail_applyGrowth :
    (∀ (S : List ForecastRow) (r : ℚ),
      summarize (tailWindow (applyGrowth S r) 6) =
        ((S.drop (S.length - 6)).map (fun p => p.yhat * (1 + r))).sum) ∧
    summarize (tailWindow (applyGrowth S12 (20/100))  6) = 720 := by
  constructor
  · intro S r
    simp only [summarize, tailWindow, applyGrowth, List.length_map,
      ← List.map_drop, List.map_map]
    rfl
  · norm_num [S12, summarize, tailWindow, applyGrowth]

theorem idxminMAE_eq_none (table : List ErrorRow) :
    idxminMAE table = none ↔ table = [] := by
  cases table with
  | nil => simp [idxminMAE]
  | cons r rs =>
    simp only [idxminMAE]
    cases hrs : idxminMAE rs <;> simp

theorem idxminMAE_spec (table : List ErrorRow) (h : table ≠ []) :
    ∃ b, idxminMAE table = some b ∧ (∀ q ∈ table, b.mae ≤ q.mae) ∧
      table.find? (fun q => q.mae = b.mae) = some b := by
  induction table with
  | nil => exact absurd rfl h
  | cons r rs ih =>
    cases hrs : idxminMAE rs with
    | none =>
      have hnil : rs = [] := (idxminMAE_eq_none rs).mp hrs
      subst hnil
      refine ⟨r, by simp [idxminMAE], ?_, by simp [List.find?]⟩
      intro q hq
      simp only [List.mem_singleton] at hq
      subst hq
      exact le_refl _
    | some b =>
      have hne : rs ≠ [] := by
        intro he
        subst he
        simp [idxminMAE] at hrs
      obtain ⟨b2, hb2, hmin, hfind⟩ := ih hne
      rw [hrs] at hb2
      injection hb2 with hb2
      subst hb2
      by_cases hlt : b.mae < r.mae
      · refine ⟨b, by simp [idxminMAE, hrs, hlt], ?_, ?_⟩
        · intro q hq
          rcases List.mem_cons.mp hq with h1 | h1
          · subst h1
            exact le_of_lt hlt
          · exact hmin q h1
        · have hner : (decide (r.mae = b.mae)) = false := by
            simp
            exact (ne_of_gt hlt)
          simp only [List.find?, hner]
          exact hfind
      · refine ⟨r, by simp [idxminMAE, hrs, hlt], ?_, ?_⟩
        · intro q hq
          rcases List.mem_cons.mp hq with h1 | h1
          · subst h1
            exact le_refl _
          · exact le_trans (not_lt.mp hlt) (hmin q h1)
        · simp [List.find?]

/-- Claim C5: on a non-empty error table, the best model is the one with
minimum MAE, paired with that MAE, and on ties the first row (in insertion
order) attaining the minimum is the one returned: find? locates exactly the
returned row. -/
theorem bestModel_first_min (table : List ErrorRow) (h : table ≠ []) :
    ∃ nm m, bestModel table = some (nm, m) ∧
      (∀ q ∈ table, m ≤ q.mae) ∧
      ∃ r, table.find? (fun q => q.mae = m) = some r ∧
        r.model = nm ∧ r.mae = m := by
  obtain ⟨b, hb, hmin, hfind⟩ := idxminMAE_spec table h
  exact ⟨b.model, b.mae, by simp [bestModel, hb], hmin, b, hfind, rfl, rfl⟩

/-- Witness for C5 on the spec's example table A:5, B:3, C:3, where the
result is ("B", 3): first occurrence wins the tie. -/
theorem bestModel_first_min_witness :
    (([⟨"A", 5, 0, 0, 0⟩, ⟨"B", 3, 0, 0, 0⟩, ⟨"C", 3, 0, 0, 0⟩] :
        List ErrorRow) ≠ []) ∧
    (∃ nm m, bestModel [⟨"A", 5, 0, 0, 0⟩, ⟨"B", 3, 0, 0, 0⟩,
        ⟨"C", 3, 0, 0, 0⟩] = some (nm, m) ∧
      (∀ q ∈ ([⟨"A", 5, 0, 0, 0⟩, ⟨"B", 3, 0, 0, 0⟩, ⟨"C", 3, 0, 0, 0⟩] :
          List ErrorRow), m ≤ q.mae) ∧
      ∃ r, ([⟨"A", 5, 0, 0, 0⟩, ⟨"B", 3, 0, 0, 0⟩, ⟨"C", 3, 0, 0, 0⟩] :
          List ErrorRow).find? (fun q => q.mae = m) = some r ∧
        r.model = nm ∧ r.mae = m) ∧
    bestModel [⟨"A", 5, 0, 0, 0⟩, ⟨"B", 3, 0, 0, 0⟩, ⟨"C", 3, 0, 0, 0⟩] =
      some ("B", 3) :=
  ⟨by decide,
   bestModel_first_min [⟨"A", 5, 0, 0, 0⟩, ⟨"B", 3, 0, 0, 0⟩,
     ⟨"C", 3, 0, 0, 0⟩] (by decide),
   by decide⟩

/-- Claim C9: every selectable category other than "All Categories" comes
from the distinct Category values of the per-category table, so its filtered
series is non-empty: the missing-category branch is unreachable from the
selectbox options. -/
theorem selectable_category_nonempty (category_forecast : List CatRow)
    (c : String) (hc : c ∈ categoryOptions category_forecast)
    (hne : c ≠ "All Categories") (forecast_all : List ForecastRow) :
    selectSeries c forecast_all category_forecast ≠ [] := by
  simp only [categoryOptions] at hc
  rcases List.mem_cons.mp hc with h | h
  · exact absurd h hne
  · have h1 : c ∈ uniqueCategories category_forecast :=
      ((List.perm_insertionSort (· ≤ ·) _).mem_iff).mp h
    have h2 : c ∈ category_forecast.map CatRow.category :=
      List.mem_dedup.mp h1
    obtain ⟨r, hr, hrc⟩ := List.mem_map.mp h2
    simp only [selectSeries, if_neg hne]
    exact List.ne_nil_of_mem
      (List.mem_map_of_mem CatRow.toForecastRow
        (List.mem_filter.mpr ⟨hr, by simp [hrc]⟩))

/-- Counterexample to C1 as stated: with a per-category table holding no
"Furniture" rows, selecting "Furniture" does not signal any error: the page
renders with an empty filtered series whose KPI sum is 0. -/
theorem selectSeries_missing_category_counterexample :
    (∀ m, runMainPage (.ok stateNoFurniture) "Furniture" "Baseline (0%)" ≠
      PageOutcome.fatal m) ∧
    selectSeries "Furniture" stateNoFurniture.forecast
      stateNoFurniture.category_forecast_df = [] ∧
    ∃ out, runMainPage (.ok stateNoFurniture) "Furniture" "Baseline (0%)" =
        PageOutcome.rendered out ∧
      out.forecast6mTotal = 0 ∧ out.forecastTable = [] := by
  refine ⟨?_, rfl,
    renderMainPage stateNoFurniture "Furniture" "Baseline (0%)", rfl,
    rfl, rfl⟩
  intro m h
  simp [runMainPage] at h

/-- Claim C1 (amended): when a category other than "All Categories" has no
matching rows, selectSeries returns the empty series without signalling any
error, and the downstream KPI sum over its adjusted tail is 0. -/
theorem selectSeries_missing_category_empty (label : String)
    (forecast_all : List ForecastRow) (category_forecast : List CatRow)
    (rate : ℚ) (hne : label ≠ "All Categories")
    (hnone : ∀ r ∈ category_forecast, r.category ≠ label) :
    selectSeries label forecast_all category_forecast = [] ∧
    summarize (tailWindow
      (applyGrowth (selectSeries label forecast_all category_forecast) rate)
      6) = 0 := by
  have hsel : selectSeries label forecast_all category_forecast = [] := by
    rcases he : selectSeries label forecast_all category_forecast with
      _ | ⟨x, xs⟩
    · rfl
    · exfalso
      have hx : x ∈ selectSeries label forecast_all category_forecast := by
        rw [he]
        exact List.mem_cons_self _ _
      simp only [selectSeries, if_neg hne] at hx
      obtain ⟨r, hr, hrx⟩ := List.mem_map.mp hx
      have hmem := List.mem_filter.mp hr
      exact hnone r hmem.1 (by simpa using hmem.2)
  rw [hsel]
  exact ⟨rfl, rfl⟩

/-- Witness for the amended C1 on a table with only Office Supplies rows. -/
theorem selectSeries_missing_category_empty_witness :
    ("Furniture" ≠ "All Categories") ∧
    (∀ r ∈ ([⟨"Office Supplies", 1, 40, 30, 50⟩] : List CatRow),
      r.category ≠ "Furniture") ∧
    (selectSeries "Furniture" [] [⟨"Office Supplies", 1, 40, 30, 50⟩] = [] ∧
     summarize (tailWindow (applyGrowth
       (selectSeries "Furniture" [] [⟨"Office Supplies", 1, 40, 30, 50⟩])
       0) 6) = 0) :=
  ⟨by decide, by decide,
   selectSeries_missing_category_empty "Furniture" []
     [⟨"Office Supplies", 1, 40, 30, 50⟩] 0 (by decide) (by decide)⟩

/-- Counterexample to C2 as stated: on a 3-point series the 6-month tail
window silently keeps the 3 available points and the rendered page carries no
flag or warning about the shortfall: the only message emitted, the business
insight, is the baseline info text, not a warning. -/
theorem tailWindow_short_no_flag_counterexample :
    stateShortForecast.forecast.length = 3 ∧
    ∃ out, runMainPage (.ok stateShortForecast) "All Categories"
        "Baseline (0%)" = PageOutcome.rendered out ∧
      out.forecastTable = applyGrowth stateShortForecast.forecast 0 ∧
      out.forecastTable.length = 3 ∧
      out.insight =
        Msg.info "Baseline scenario selected. Maintain current strategy." ∧
      out.insight.isWarning = false := by
  have hg : (List.lookup "Baseline (0%)" scenario_map).getD 0 = (0 : ℚ) := rfl
  refine ⟨rfl,
    renderMainPage stateShortForecast "All Categories" "Baseline (0%)", rfl,
    rfl, rfl, ?_, ?_⟩ <;>
    norm_num [renderMainPage, hg, businessInsight, Msg.isWarning]

/-- Claim C2 (amended): for every series with at most n points, the tail
window returns the whole series, never failing; no flag or warning accompanies
the shortfall (shown by the counterexample theorem). -/
theorem tailWindow_short_returns_all (series : List AdjRow) (n : Nat)
    (h : series.length ≤ n) : tailWindow series n = series := by
  simp [tailWindow, Nat.sub_eq_zero_of_le h]

/-- Witness for the amended C2 on a 1-point series and a 6-point window. -/
theorem tailWindow_short_returns_all_witness :
    (([⟨1, 100, 80, 120, 100, 80, 120⟩] : List AdjRow).length ≤ 6) ∧
    tailWindow [⟨1, 100, 80, 120, 100, 80, 120⟩] 6 =
      [⟨1, 100, 80, 120, 100, 80, 120⟩] :=
  ⟨by decide,
   tailWindow_short_returns_all [⟨1, 100, 80, 120, 100, 80, 120⟩] 6
     (by decide)⟩

/-- Counterexample to C7 as stated: a corrupt artifact is fatal, but the
message displayed is the generic startup error carrying the exception text,
not the setup instruction; the setup instruction appears only when the file
is absent. -/
theorem load_failure_message_counterexample :
    runMainPage (.error (.corrupt "invalid load key")) "All Categories"
        "Baseline (0%)" =
      PageOutcome.fatal
        "Errors encountered while starting project: invalid load key" ∧
    "Errors encountered while starting project: invalid load key" ≠
      "Required files are not found. Please run the training notebook first." :=
  ⟨rfl, by decide⟩

/-- Claim C7 (amended): any load failure is fatal: the session shows only the
error message and renders no page output (so no forecast computation result
is displayed); the absent-file case shows the setup instruction, the corrupt
case the generic startup error carrying the exception text. -/
theorem load_failure_fatal (e : LoadError) (c s msg : String) :
    runMainPage (.error e) c s = PageOutcome.fatal (loadErrorMessage e) ∧
    (∀ out, runMainPage (.error e) c s ≠ PageOutcome.rendered out) ∧
    runMainPage (.error .fileNotFound) c s = PageOutcome.fatal
      "Required files are not found. Please run the training notebook first." ∧
    runMainPage (.error (.corrupt msg)) c s = PageOutcome.fatal
      ("Errors encountered while starting project: " ++ msg) := by
  refine ⟨rfl, ?_, rfl, rfl⟩
  intro out h
  simp [runMainPage] at h

/-- Claim C10: the scenario computation never mutates the loaded base data:
the store is identical before and after, and the adjusted values live in new
columns of the local copied frame, whose base rows are exactly the selected
series, unchanged. -/
theorem scenarioComputation_no_mutation (store : LoadedTables)
    (category : String) (rate : ℚ) :
    (scenarioComputation store category rate).1 = store ∧
    ((scenarioComputation store category rate).2).rows =
      selectSeries category store.forecast_all.rows
        store.category_forecast := by
  unfold scenarioComputation chooseForecastFrame
  by_cases h : category = "All Categories" <;>
    simp [h, assignGrowthColumns, addGrowthColumns, selectSeries]

/-- Witness for C9 on a one-row table for "Furniture". -/
theorem selectable_category_nonempty_witness :
    ("Furniture" ∈ categoryOptions [⟨"Furniture", 1, 10, 8, 12⟩]) ∧
    "Furniture" ≠ "All Categories" ∧
    selectSeries "Furniture" [] [⟨"Furniture", 1, 10, 8, 12⟩] ≠ [] :=
  ⟨by decide, by decide,
   selectable_category_nonempty [⟨"Furniture", 1, 10, 8, 12⟩] "Furniture"
     (by decide) (by decide) []⟩

end Dashboard
